import Mathlib

/-!
Verification development for the remote-process WebSocket/gRPC bridge.

The definitions below are a shallow embedding of the Go sources:
  * `src/worker/internal/adapters/websockets/tasks_handlers.go`
    (WebSocket session manager, create-task relay, stream-task-output
    relay, error formatting);
  * `src/internal/adapters/grpc/client/remote_process/remote_process_client.go`
    (gRPC remote-process client: StartProcess receiver loop, StopProcess
    timeout, MonitorHealth receiver loop).

External effects (JSON marshalling success, socket write success, the
executor's results, context cancellation) are passed in as explicit
oracle data so that every control path of the source is represented.
The list of `WSOut` values produced by a handler records, in order, the
messages the handler submits to the connection's write path.
-/

namespace RemoteProc

/-- Modelled from the spec: the worker's task-state enum.  The `domain`
package is not under `src/`; the spec lists the states Scheduled, Running,
Completed, Failed, Stopped, and the handler source additionally references
a `FINISHED` constant used in the create-task done message. -/
inductive TaskState where
  | Scheduled
  | Running
  | Completed
  | Failed
  | Stopped
  | Finished
deriving DecidableEq, Repr

/-- Modelled from the spec: the string rendering of a task state
(`State.String()` in Go; the `domain` package is not under `src/`, so the
exact strings are taken from the state names). -/
def stateString : TaskState → String
  | TaskState.Scheduled => "SCHEDULED"
  | TaskState.Running => "RUNNING"
  | TaskState.Completed => "COMPLETED"
  | TaskState.Failed => "FAILED"
  | TaskState.Stopped => "STOPPED"
  | TaskState.Finished => "FINISHED"

/-- Modelled from the spec: the worker's `domain.Task` as consulted by the
handlers (the `domain` package is not under `src/`).  Only the fields the
handlers read are carried: the generated id, the name and the lifecycle
state. -/
structure Task where
  id : String
  name : String
  state : TaskState
deriving DecidableEq, Repr

/-- `TaskResponse` from `tasks_handlers.go` (lines 409-437).  Field
defaults mirror Go zero values, matching fields left unset at a
construction site. -/
structure TaskResponse where
  task_id : String := ""
  status : String := ""
  output : String := ""
  error : String := ""
  is_error : Bool := false
  exit_code : String := ""
  completed_at : String := ""
deriving DecidableEq, Repr

/-- One chunk of process output as read from the executor's output
channel (`domain.ProcessOutput`: text, error flag, current state).  The
`domain` package is not under `src/`; fields are modelled from the spec's
`OutputRecord` entity and the handler's uses (`output.Output`,
`output.IsError`, `output.Status.String()`). -/
structure OutputRecord where
  output : String
  is_error : Bool
  status : TaskState
deriving DecidableEq, Repr

/-- A message submitted to the WebSocket connection's write path.
`jsonMsg` is a `WSMessage{Action, Payload}` written by `WriteJSON`
(`sendJSON` and the create-task relay); `doneMsg` is the bare
`map[string]interface` done object of `handleCreateTask` (lines
159-167), which is not wrapped in an action envelope; `closeFrame` is a
close control frame; `pingMsg` is a ping control frame; `taskListMsg`
carries the task collection sent by `handleListTasks`. -/
inductive WSOut where
  | jsonMsg (action : String) (payload : TaskResponse)
  | doneMsg (done : Bool) (exit_code : Nat) (message : String) (status : String)
  | closeFrame (code : Nat) (text : String)
  | pingMsg
  | taskListMsg (tasks : List Task)
deriving DecidableEq, Repr

/-- `sendError` (tasks_handlers.go lines 320-326): a `task_error`
envelope whose payload has `IsError=true`, `ExitCode=code`,
`Error=message`. -/
def sendError (code message : String) : WSOut :=
  WSOut.jsonMsg "task_error" { is_error := true, exit_code := code, error := message }

/-- The `task_output` message built for one output record (the
`TaskResponse` literal at lines 134-139 / 207-212). -/
def taskOutputMsg (taskID : String) (r : OutputRecord) : WSOut :=
  WSOut.jsonMsg "task_output"
    { task_id := taskID, output := r.output, is_error := r.is_error,
      status := stateString r.status }

/-- The done object sent by `handleCreateTask` after the output channel
closes (lines 159-164): `done=true`, `exit_code=0`,
`message="Process completed successfully"`, `status=FINISHED` — fixed,
with no dependence on the task's actual final state. -/
def doneWS : WSOut :=
  WSOut.doneMsg true 0 "Process completed successfully" (stateString TaskState.Finished)

/-- The optional close frame sent by `handleCreateTask` after the done
message (lines 170-173): normal closure (code 1000). -/
def closeWS : WSOut :=
  WSOut.closeFrame 1000 "Process finished"

/-- One iteration's oracle data for the `handleCreateTask` relay loop:
the record received from the output channel, whether `json.Marshal`
succeeded for it, and whether `conn.WriteJSON` succeeded for it. -/
structure RelayEvent where
  record : OutputRecord
  marshalOk : Bool
  writeOk : Bool
deriving DecidableEq, Repr

/-- The relay loop of `handleCreateTask` (lines 133-173), from the first
channel receive on.  A marshal failure returns before any write for that
record; a write failure submits the message but returns right after; when
the channel closes (list exhausted) the done message and then the close
frame are submitted. -/
def handleCreateTaskRelay (taskID : String) : List RelayEvent → List WSOut
  | [] => [doneWS, closeWS]
  | e :: rest =>
    if e.marshalOk then
      if e.writeOk then taskOutputMsg taskID e.record :: handleCreateTaskRelay taskID rest
      else [taskOutputMsg taskID e.record]
    else []

/-- The records the relay loop submits as `task_output` messages: all
records up to and including the first write failure, and excluding a
record whose marshalling fails. -/
def processedRelay : List RelayEvent → List OutputRecord
  | [] => []
  | e :: rest =>
    if e.marshalOk then
      if e.writeOk then e.record :: processedRelay rest
      else [e.record]
    else []

/-- Whether every relay iteration marshals and writes successfully. -/
def allOk (evs : List RelayEvent) : Bool :=
  evs.all fun e => e.marshalOk && e.writeOk

/-- The decoded `create_task` payload: `json.Unmarshal` either fails or
yields a `TaskRequest` (tasks_handlers.go lines 375-405). -/
structure TaskRequest where
  name : String
  image : String
  command : List String
  env : List (String × String)
  working_dir : String
  instance_type : String
  timeout : Int
deriving DecidableEq, Repr

/-- Result of decoding the `create_task` payload. -/
inductive CreatePayload where
  | malformed
  | ok (req : TaskRequest)
deriving DecidableEq, Repr

/-- Oracle data for one `handleCreateTask` call: the generated task id
(`uuid.New()`), the decode result, and what `worker.AddTask` returns for
the constructed task — an error, or the contents of the output channel
together with the per-record marshal/write outcomes. -/
structure CreateEnv where
  taskID : String
  payload : CreatePayload
  addTask : Except String (List RelayEvent)

/-- What one `handleCreateTask` call did: the messages submitted to the
write path, and whether `worker.AddTask` was invoked. -/
structure CreateResult where
  sent : List WSOut
  addTaskInvoked : Bool
deriving DecidableEq, Repr

/-- `handleCreateTask` (tasks_handlers.go lines 113-174): decode failure
→ `invalid_request`; empty name or image → `validation_error`; `AddTask`
failure → `create_error`; otherwise the relay loop runs. -/
def handleCreateTask (env : CreateEnv) : CreateResult :=
  match env.payload with
  | CreatePayload.malformed =>
      { sent := [sendError "invalid_request" "Error decoding task request"],
        addTaskInvoked := false }
  | CreatePayload.ok req =>
      if req.name = "" ∨ req.image = "" then
        { sent := [sendError "validation_error" "Name and Image are required fields"],
          addTaskInvoked := false }
      else
        match env.addTask with
        | Except.error e =>
            { sent := [sendError "create_error" ("Error creating task: " ++ e)],
              addTaskInvoked := true }
        | Except.ok evs =>
            { sent := handleCreateTaskRelay env.taskID evs, addTaskInvoked := true }

/-- One iteration's oracle data for the `streamTaskOutput` loop: the
record received from the output channel, whether `sendJSON` succeeded
(marshal and write together, as `sendJSON` returns one Bool), and whether
the context was observed done at the select following the send. -/
structure StreamEvent where
  record : OutputRecord
  sendOk : Bool
  ctxDone : Bool
deriving DecidableEq, Repr

/-- The loop of `streamTaskOutput` (tasks_handlers.go lines 205-227):
each record is submitted as a `task_output` message; on send failure the
loop returns; otherwise the select either observes cancellation (stop
task, return) or sends a keepalive ping and continues. -/
def streamLoop (taskID : String) : List StreamEvent → List WSOut
  | [] => []
  | e :: rest =>
    taskOutputMsg taskID e.record ::
      (if e.sendOk then
        (if e.ctxDone then [] else WSOut.pingMsg :: streamLoop taskID rest)
      else [])

/-- The records `streamTaskOutput` submits as `task_output` messages:
every record received up to and including the first send failure or
cancellation observation. -/
def processedStream : List StreamEvent → List OutputRecord
  | [] => []
  | e :: rest =>
    e.record ::
      (if e.sendOk then (if e.ctxDone then [] else processedStream rest) else [])

/-- Whether `streamTaskOutput` called `worker.StopTask` (it does exactly
when an iteration's select observed cancellation after a successful
send). -/
def streamStopCalled : List StreamEvent → Bool
  | [] => false
  | e :: rest =>
    if e.sendOk then (if e.ctxDone then true else streamStopCalled rest)
    else false

/-- `sendTaskCompletion` (tasks_handlers.go lines 230-251): queries
`worker.GetTask`; on failure sends a `task_error` envelope; on success
sends a `task_completed` envelope with the resolved status, exit code
`"COMPLETED"` when the state is Completed and otherwise `"1"` with the
error text `"Task failed to complete"`.  `now` is the RFC3339 rendering
of the completion time. -/
def sendTaskCompletion (taskID : String) (getTask : Except String Task)
    (now : String) : List WSOut :=
  match getTask with
  | Except.error e =>
      [sendError "task_error" ("Error getting task status: " ++ e)]
  | Except.ok task =>
      [WSOut.jsonMsg "task_completed"
        { task_id := taskID
          status := stateString task.state
          completed_at := now
          exit_code := if task.state = TaskState.Completed then "COMPLETED" else "1"
          error := if task.state = TaskState.Completed then ""
                   else "Task failed to complete" }]

/-- `streamTaskOutput` (tasks_handlers.go lines 202-228): the loop runs
and, via `defer`, `sendTaskCompletion` runs after it on every exit path.
`getTask` is what `worker.GetTask` returns when the loop ends. -/
def streamTaskOutput (taskID : String) (evs : List StreamEvent)
    (getTask : Except String Task) (now : String) : List WSOut :=
  streamLoop taskID evs ++ sendTaskCompletion taskID getTask now

/-- Oracle data for one `handleStopTask` call: the decoded `task_id`
(`none` on a decode failure) and what `worker.StopTask` returned. -/
structure StopEnv where
  payload : Option String
  stopResult : Except String Unit

/-- `handleStopTask` (tasks_handlers.go lines 253-271): decode failure →
`invalid_request`; `StopTask` failure → `stop_error` carrying the
executor's message; success → a `task_stopped` envelope with the id and
status `"stopped"`. -/
def handleStopTask (env : StopEnv) : List WSOut :=
  match env.payload with
  | none => [sendError "invalid_request" "Invalid task ID format"]
  | some tid =>
    match env.stopResult with
    | Except.error e => [sendError "stop_error" e]
    | Except.ok _ =>
        [WSOut.jsonMsg "task_stopped" { task_id := tid, status := "stopped" }]

/-- Oracle data for one `handleListTasks` call: what `worker.GetTasks`
returned. -/
structure ListEnv where
  tasks : Except String (List Task)

/-- `handleListTasks` (tasks_handlers.go lines 273-281): failure →
`list_error` with the fixed message; success → a `task_list` message
carrying the collection. -/
def handleListTasks (env : ListEnv) : List WSOut :=
  match env.tasks with
  | Except.error _ => [sendError "list_error" "Error retrieving tasks"]
  | Except.ok ts => [WSOut.taskListMsg ts]

/-- One iteration of the `HandleConnection` read loop: either `ReadJSON`
fails (the loop breaks), or a decoded action envelope is dispatched. -/
inductive SessionEvent where
  | readFailure
  | createTask (env : CreateEnv)
  | stopTask (env : StopEnv)
  | listTasks (env : ListEnv)
  | unknownAction (name : String)

/-- The action dispatch of `HandleConnection` (tasks_handlers.go lines
100-109): the messages submitted while handling the event, and whether
the read loop continues afterwards (it breaks only on a read failure). -/
def dispatch : SessionEvent → List WSOut × Bool
  | SessionEvent.readFailure => ([], false)
  | SessionEvent.createTask env => ((handleCreateTask env).sent, true)
  | SessionEvent.stopTask env => (handleStopTask env, true)
  | SessionEvent.listTasks env => (handleListTasks env, true)
  | SessionEvent.unknownAction _ =>
      ([sendError "unknown_action" "Unsupported action type"], true)

/-- The read loop of `HandleConnection` (tasks_handlers.go lines 91-110)
over a finite trace of incoming events: concatenates each handled
event's messages and stops at the first read failure. -/
def sessionLoop : List SessionEvent → List WSOut
  | [] => []
  | e :: rest =>
    (dispatch e).1 ++ (if (dispatch e).2 then sessionLoop rest else [])

/-- `ProcessOutput` from the protobuf contract
(`src/unnamed/part_000`): process id, output text, error flag. -/
structure ProcessOutput where
  process_id : String
  output : String
  is_error : Bool
deriving DecidableEq, Repr

/-- How the `StartProcess` receiver loop's `stream.Recv` sequence ends
(remote_process_client.go lines 67-79): end of stream (`io.EOF`), a
receive error, or an internal fault (panic) recovered by the deferred
function. -/
inductive Terminator where
  | eofEnd
  | recvErr (msg : String)
  | fault (msg : String)
deriving DecidableEq, Repr

/-- The client-visible state of the output channel: the values sent on
it, in order, and how many times `close` ran on it. -/
structure ChanState where
  buffer : List ProcessOutput
  closeCount : Nat
deriving DecidableEq, Repr

/-- `outputChan <- resp` (remote_process_client.go line 78). -/
def sendOp (s : ChanState) (o : ProcessOutput) : ChanState :=
  { s with buffer := s.buffer ++ [o] }

/-- `close(outputChan)` (remote_process_client.go line 65). -/
def closeOp (s : ChanState) : ChanState :=
  { s with closeCount := s.closeCount + 1 }

/-- The receiver goroutine of `StartProcess` (remote_process_client.go
lines 60-80): the loop forwards each received frame onto the channel and
exits on the terminator; the deferred function then runs exactly once —
recovering when the exit was a fault — and closes the channel.  Returns
the final channel state and whether a fault was recovered. -/
def startProcessReceiver (frames : List ProcessOutput) (t : Terminator) :
    ChanState × Bool :=
  let afterLoop := frames.foldl sendOp { buffer := [], closeCount := 0 }
  let recovered := match t with
    | Terminator.fault _ => true
    | _ => false
  (closeOp afterLoop, recovered)

/-- Go's `context.WithTimeout` on deadlines, with time as abstract
ticks: the child context's deadline is `now + dur`, further capped by the
parent's deadline when the parent has one. -/
def withTimeout (parent : Option Nat) (now dur : Nat) : Option Nat :=
  match parent with
  | none => some (now + dur)
  | some d => some (min d (now + dur))

/-- The fixed local timeout `StopProcess` applies
(remote_process_client.go line 91: `5*time.Second`), in seconds. -/
def stopProcessTimeoutSeconds : Nat := 5

/-- The deadline of the context `StopProcess` performs its unary call
under (remote_process_client.go lines 91-92): the caller's context
wrapped with the fixed 5-second timeout. -/
def stopProcessDeadline (callerDeadline : Option Nat) (now : Nat) : Option Nat :=
  withTimeout callerDeadline now stopProcessTimeoutSeconds

/-- `HealthStatus` from the protobuf contract (`src/unnamed/part_000`). -/
structure HealthStatus where
  process_id : String
  is_running : Bool
  status : String
  is_healthy : Bool
deriving DecidableEq, Repr

/-- The degraded record `MonitorHealth` synthesizes on a receive error
(remote_process_client.go lines 144-148): running=false, status the
formatted error text; `IsHealthy` is left at its zero value. -/
def degradedRecord (pid msg : String) : HealthStatus :=
  { process_id := pid, is_running := false,
    status := "Error receiving response: " ++ msg, is_healthy := false }

/-- One iteration's oracle data for the `MonitorHealth` receiver loop:
the top-of-loop select observes cancellation; or `Recv` yields a frame
(with whether the context became done while the forwarding send was
blocked); or `Recv` yields end of stream; or `Recv` yields an error
(with whether `ctx.Err()` was `context.Canceled` at that moment, and
whether the context became done while the synthetic send was blocked). -/
inductive MHEvent where
  | ctxDoneAtSelect
  | frame (h : HealthStatus) (ctxDoneDuringSend : Bool)
  | eofEnd
  | recvError (msg : String) (ctxCanceled : Bool) (ctxDoneDuringSend : Bool)
deriving DecidableEq, Repr

/-- The receiver goroutine of `MonitorHealth` (remote_process_client.go
lines 119-162).  Returns the records offered to `healthChan` (attempted
sends) and those actually delivered (the send won the race against
cancellation), both in order. -/
def mhLoop (pid : String) : List MHEvent → List HealthStatus × List HealthStatus
  | [] => ([], [])
  | MHEvent.ctxDoneAtSelect :: _ => ([], [])
  | MHEvent.eofEnd :: _ => ([], [])
  | MHEvent.recvError m canceled race :: _ =>
    if canceled then ([], [])
    else ([degradedRecord pid m], if race then [] else [degradedRecord pid m])
  | MHEvent.frame h race :: rest =>
    if race then ([h], [])
    else
      ((mhLoop pid rest).1.cons h, (mhLoop pid rest).2.cons h)

/-- The upgrader's `CheckOrigin` (tasks_handlers.go lines 28-34):
`return true` unconditionally.  The source reads no deployment
configuration at all, so a production flag is taken as an explicit
argument to state configuration-dependence: the result ignores it, as it
ignores the request's origin. -/
def checkOrigin (_production : Bool) (_origin : String) : Bool :=
  true

/-- Whether a submitted message is a `task_output` envelope. -/
def isTaskOutput : WSOut → Bool
  | WSOut.jsonMsg a _ => a == "task_output"
  | _ => false

/-- Whether a submitted message is a terminal message for a task: the
bare done object of `handleCreateTask`, or a `task_completed` envelope. -/
def isTerminalMsg : WSOut → Bool
  | WSOut.doneMsg _ _ _ _ => true
  | WSOut.jsonMsg a _ => a == "task_completed"
  | _ => false

/-- Whether a submitted message is a `task_completed` envelope. -/
def isCompletedMsg : WSOut → Bool
  | WSOut.jsonMsg a _ => a == "task_completed"
  | _ => false

/-- Whether a terminal message reads as a success confirmation: exit
code zero for the bare done object, `"COMPLETED"` (or `"0"`) for an
envelope. -/
def isSuccessConfirmation : WSOut → Bool
  | WSOut.doneMsg _ code _ _ => code == 0
  | WSOut.jsonMsg _ p => p.exit_code == "COMPLETED" || p.exit_code == "0"
  | _ => false

/-- The requirement C2 states, following the spec's words: the terminal
message is a success confirmation when the task's state resolved to
Completed, and otherwise describes a failure (is not a success
confirmation). -/
def terminalMatchesState (st : TaskState) (m : WSOut) : Bool :=
  if st = TaskState.Completed then isSuccessConfirmation m
  else !(isSuccessConfirmation m)

/-- A sample `create_task` environment whose decoded payload is missing
the name (the spec's scenario: payload omits `name`). -/
def sampleMissingNameEnv : CreateEnv :=
  { taskID := "t1"
  , payload := CreatePayload.ok
      { name := "", image := "demo", command := [], env := [],
        working_dir := "", instance_type := "", timeout := 0 }
  , addTask := Except.ok [] }

/-- A sample relay iteration where marshalling and writing both
succeed. -/
def sampleGoodEvent : RelayEvent :=
  { record := { output := "hi", is_error := false, status := TaskState.Running },
    marshalOk := true, writeOk := true }

/-- A sample output record whose serialization will fail in the relay
counterexamples. -/
def sampleBadRecord : OutputRecord :=
  { output := "oops", is_error := true, status := TaskState.Running }

theorem handleCreateTaskRelay_eq (t : String) (evs : List RelayEvent) :
    handleCreateTaskRelay t evs
      = (processedRelay evs).map (taskOutputMsg t)
        ++ (if allOk evs = true then [doneWS, closeWS] else []) := by
  induction evs with
  | nil => rfl
  | cons e rest ih =>
    cases hm : e.marshalOk with
    | false => simp [handleCreateTaskRelay, processedRelay, allOk, hm]
    | true =>
      cases hw : e.writeOk with
      | false => simp [handleCreateTaskRelay, processedRelay, allOk, hm, hw]
      | true => simp [handleCreateTaskRelay, processedRelay, allOk, hm, hw, ih]

theorem processedRelay_take (evs : List RelayEvent) :
    ∃ n, processedRelay evs = (evs.map (fun e => e.record)).take n := by
  induction evs with
  | nil => exact ⟨0, rfl⟩
  | cons e rest ih =>
    cases hm : e.marshalOk with
    | false => exact ⟨0, by simp [processedRelay, hm]⟩
    | true =>
      cases hw : e.writeOk with
      | false => exact ⟨1, by simp [processedRelay, hm, hw]⟩
      | true =>
        obtain ⟨n, hn⟩ := ih
        exact ⟨n + 1, by simp [processedRelay, hm, hw, hn]⟩

theorem streamLoop_filter (t : String) (sevs : List StreamEvent) :
    (streamLoop t sevs).filter isTaskOutput
      = (processedStream sevs).map (taskOutputMsg t) := by
  induction sevs with
  | nil => rfl
  | cons e rest ih =>
    cases hs : e.sendOk with
    | false => simp [streamLoop, processedStream, hs, isTaskOutput, taskOutputMsg]
    | true =>
      cases hc : e.ctxDone with
      | true => simp [streamLoop, processedStream, hs, hc, isTaskOutput, taskOutputMsg]
      | false =>
        simp [streamLoop, processedStream, hs, hc, isTaskOutput, taskOutputMsg, ih]

theorem processedStream_take (sevs : List StreamEvent) :
    ∃ n, processedStream sevs = (sevs.map (fun e => e.record)).take n := by
  induction sevs with
  | nil => exact ⟨0, rfl⟩
  | cons e rest ih =>
    cases hs : e.sendOk with
    | false => exact ⟨1, by simp [processedStream, hs]⟩
    | true =>
      cases hc : e.ctxDone with
      | true => exact ⟨1, by simp [processedStream, hs, hc]⟩
      | false =>
        obtain ⟨n, hn⟩ := ih
        exact ⟨n + 1, by simp [processedStream, hs, hc, hn]⟩

theorem sendTaskCompletion_not_output (t now : String) (g : Except String Task) :
    (sendTaskCompletion t g now).countP isTaskOutput = 0 := by
  cases g with
  | error e => rfl
  | ok task => rfl

theorem map_taskOutput_countP_terminal (t : String) (rs : List OutputRecord) :
    (rs.map (taskOutputMsg t)).countP isTerminalMsg = 0 := by
  induction rs with
  | nil => rfl
  | cons r rs ih => simp [List.countP_cons, taskOutputMsg, isTerminalMsg, ih]

theorem foldl_sendOp_spec (frames : List ProcessOutput) (s : ChanState) :
    (frames.foldl sendOp s).buffer = s.buffer ++ frames
    ∧ (frames.foldl sendOp s).closeCount = s.closeCount := by
  induction frames generalizing s with
  | nil => simp
  | cons f fs ih =>
    have h := ih (sendOp s f)
    refine ⟨?_, ?_⟩
    · rw [List.foldl_cons, h.1]; simp [sendOp]
    · rw [List.foldl_cons, h.2]; rfl

theorem relay_marshal_failure (t : String) (pre : List RelayEvent)
    (r : OutputRecord) (w : Bool) (rest : List RelayEvent)
    (h : allOk pre = true) :
    handleCreateTaskRelay t (pre ++ { record := r, marshalOk := false, writeOk := w } :: rest)
      = pre.map (fun e => taskOutputMsg t e.record) := by
  induction pre with
  | nil => rfl
  | cons e es ih =>
    simp only [allOk, List.all_cons, Bool.and_eq_true] at h
    simp [handleCreateTaskRelay, h.1.1, h.1.2, ih h.2]

/-- Claim C1, counterexample: in the `handleCreateTask` relay, an output
record whose JSON serialization fails makes the relay return with no
messages submitted at all — in particular zero terminal messages on that
exit path, where the claim demands exactly one on every exit path. -/
theorem claim1_counterexample :
    handleCreateTaskRelay "t1"
        [{ record := { output := "hi", is_error := false, status := TaskState.Running },
           marshalOk := false, writeOk := true }] = []
    ∧ (handleCreateTaskRelay "t1"
        [{ record := { output := "hi", is_error := false, status := TaskState.Running },
           marshalOk := false, writeOk := true }]).countP isTerminalMsg = 0 :=
  ⟨rfl, rfl⟩

/-- Claim C1 (amended): both relays submit the task's output records in
exactly the order received from the output channel, and the records
submitted form an initial segment of the records received.
`streamTaskOutput` submits exactly one trailing completion message after
the loop on every exit path (and that message is not an output record);
the `handleCreateTask` relay submits exactly one terminal message — the
done object — after all outputs, but only on the exit path where the
output channel closed with every record marshalled and written; on a
marshal-failure or write-failure exit it submits no terminal message. -/
theorem claim1_amended (t now : String) (evs : List RelayEvent)
    (sevs : List StreamEvent) (g : Except String Task) :
    handleCreateTaskRelay t evs
        = (processedRelay evs).map (taskOutputMsg t)
          ++ (if allOk evs = true then [doneWS, closeWS] else [])
    ∧ (handleCreateTaskRelay t evs).countP isTerminalMsg
        = (if allOk evs = true then 1 else 0)
    ∧ (∃ n, processedRelay evs = (evs.map (fun e => e.record)).take n)
    ∧ streamTaskOutput t sevs g now
        = streamLoop t sevs ++ sendTaskCompletion t g now
    ∧ (sendTaskCompletion t g now).length = 1
    ∧ (sendTaskCompletion t g now).countP isTaskOutput = 0
    ∧ (streamLoop t sevs).filter isTaskOutput
        = (processedStream sevs).map (taskOutputMsg t)
    ∧ (∃ n, processedStream sevs = (sevs.map (fun e => e.record)).take n) := by
  refine ⟨handleCreateTaskRelay_eq t evs, ?_, processedRelay_take evs, rfl, ?_,
          sendTaskCompletion_not_output t now g, streamLoop_filter t sevs,
          processedStream_take sevs⟩
  · rw [handleCreateTaskRelay_eq, List.countP_append,
        map_taskOutput_countP_terminal]
    cases h : allOk evs with
    | false => simp [h]
    | true => simp [h]; decide
  · cases g with
    | error e => rfl
    | ok task => rfl

/-- Claim C2, counterexample: after the output channel closes,
`handleCreateTask` always sends the fixed success done object; for a
task whose state resolved to `Failed` that message is still a success
confirmation, not a marker describing the actual final state with error
detail. -/
theorem claim2_counterexample :
    handleCreateTaskRelay "t1" [] = [doneWS, closeWS]
    ∧ isSuccessConfirmation doneWS = true
    ∧ terminalMatchesState TaskState.Failed doneWS = false :=
  ⟨rfl, rfl, rfl⟩

/-- Claim C2 (amended): after the output channel closes (on the
all-writes-succeeded exit path), `handleCreateTask` sends a single fixed
done message — `done=true`, `exit_code=0`,
`"Process completed successfully"`, status `FINISHED` — followed by a
close frame, without consulting the task's final state; that message
satisfies the spec's success-iff-Completed requirement only when the
state is Completed. -/
theorem claim2_amended (t : String) (evs : List RelayEvent) (st : TaskState) :
    (handleCreateTaskRelay t evs).drop
        ((processedRelay evs).map (taskOutputMsg t)).length
        = (if allOk evs = true then [doneWS, closeWS] else [])
    ∧ doneWS = WSOut.doneMsg true 0 "Process completed successfully" "FINISHED"
    ∧ terminalMatchesState st doneWS = decide (st = TaskState.Completed) := by
  refine ⟨?_, rfl, ?_⟩
  · rw [handleCreateTaskRelay_eq, List.drop_left]
  · cases st <;> rfl

/-- Claim C3, counterexample: when `GetTask` fails at loop end,
`streamTaskOutput` sends a `task_error` envelope, not a `task_completed`
envelope carrying a resolved status. -/
theorem claim3_counterexample :
    streamTaskOutput "t1" [] (Except.error "task not found: t1")
        "2025-01-24T19:06:51Z"
      = [WSOut.jsonMsg "task_error"
          { is_error := true, exit_code := "task_error",
            error := "Error getting task status: task not found: t1" }]
    ∧ (streamTaskOutput "t1" [] (Except.error "task not found: t1")
        "2025-01-24T19:06:51Z").countP isCompletedMsg = 0 :=
  ⟨rfl, rfl⟩

/-- Claim C3 (amended): when its relay loop ends, `streamTaskOutput`
queries the task status; when `GetTask` succeeds it sends a
`task_completed` envelope with the resolved status and exit code
`"COMPLETED"` if the state is Completed, else `"1"` with the explanatory
error field; when `GetTask` fails it sends a `task_error` envelope
instead. -/
theorem claim3_amended (t now e : String) (sevs : List StreamEvent) (task : Task) :
    streamTaskOutput t sevs (Except.ok task) now
        = streamLoop t sevs ++
          [WSOut.jsonMsg "task_completed"
            { task_id := t
              status := stateString task.state
              completed_at := now
              exit_code := if task.state = TaskState.Completed then "COMPLETED" else "1"
              error := if task.state = TaskState.Completed then ""
                       else "Task failed to complete" }]
    ∧ streamTaskOutput t sevs (Except.error e) now
        = streamLoop t sevs ++
          [sendError "task_error" ("Error getting task status: " ++ e)] :=
  ⟨rfl, rfl⟩

/-- Claim C4 (confirmed): for every successful `StartProcess` call, the
receiver loop forwards every received frame onto the output channel in
order and the deferred function closes the channel exactly once on every
exit path — end of stream, receive error, or a recovered internal fault
(and the fault is recovered precisely on the fault exit). -/
theorem claim4_thm (frames : List ProcessOutput) (t : Terminator) :
    (startProcessReceiver frames t).1.closeCount = 1
    ∧ (startProcessReceiver frames t).1.buffer = frames
    ∧ ((startProcessReceiver frames t).2 = true ↔ ∃ m, t = Terminator.fault m) := by
  have h := foldl_sendOp_spec frames { buffer := [], closeCount := 0 }
  refine ⟨?_, ?_, ?_⟩
  · simp [startProcessReceiver, closeOp, h.2]
  · simp [startProcessReceiver, closeOp, h.1]
  · cases t <;> simp [startProcessReceiver]

/-- Claim C5 (confirmed): the context `StopProcess` calls under always
carries a deadline at most 5 seconds from now, for every caller
deadline; in particular a caller context with no deadline yields exactly
the 5-second local bound. -/
theorem claim5_thm (callerDeadline : Option Nat) (now : Nat) :
    (∃ d, stopProcessDeadline callerDeadline now = some d ∧ d ≤ now + 5)
    ∧ stopProcessDeadline none now = some (now + 5) := by
  refine ⟨?_, rfl⟩
  cases callerDeadline with
  | none => exact ⟨now + 5, rfl, Nat.le_refl _⟩
  | some d => exact ⟨min d (now + 5), rfl, min_le_right _ _⟩

/-- Claim C6, counterexample: a receive error arriving while the context
is already cancelled makes the `MonitorHealth` receiver exit silently —
no degraded record is synthesized or offered to the health channel,
where the claim demands one on every receive error. -/
theorem claim6_counterexample :
    (mhLoop "p1" [MHEvent.recvError "connection reset" true false]).1 = []
    ∧ (mhLoop "p1" [MHEvent.recvError "connection reset" true false]).1
        ≠ [degradedRecord "p1" "connection reset"] :=
  ⟨rfl, by decide⟩

/-- Claim C6 (amended): on a receive error other than end-of-stream, if
`ctx.Err()` is already `context.Canceled` the receiver exits silently
with no synthetic record; otherwise it synthesizes the degraded record
(`is_running=false`, status carrying the error text), offers it to the
health channel racing against cancellation — so it is delivered exactly
when the send wins the race — and exits without processing anything
further. -/
theorem claim6_amended (pid m : String) (race : Bool) (rest : List MHEvent) :
    mhLoop pid (MHEvent.recvError m true race :: rest) = ([], [])
    ∧ mhLoop pid (MHEvent.recvError m false race :: rest)
        = ([degradedRecord pid m], if race then [] else [degradedRecord pid m]) :=
  ⟨rfl, rfl⟩

/-- Claim C7 (confirmed): a `create_task` request whose decoded payload
has an empty name or an empty image makes the handler send exactly the
`validation_error` envelope, never invoke `AddTask`, and return to the
read loop, which continues with the remaining events. -/
theorem claim7_thm (env : CreateEnv) (req : TaskRequest) (rest : List SessionEvent)
    (h1 : env.payload = CreatePayload.ok req) (h2 : req.name = "" ∨ req.image = "") :
    (handleCreateTask env).sent
        = [sendError "validation_error" "Name and Image are required fields"]
    ∧ (handleCreateTask env).addTaskInvoked = false
    ∧ sessionLoop (SessionEvent.createTask env :: rest)
        = (handleCreateTask env).sent ++ sessionLoop rest := by
  have hsent : handleCreateTask env
      = { sent := [sendError "validation_error" "Name and Image are required fields"],
          addTaskInvoked := false } := by
    simp [handleCreateTask, h1, h2]
  exact ⟨by rw [hsent], by rw [hsent], rfl⟩

/-- Claim C7 witness: the spec's scenario — a decoded payload with image
`"demo"` and missing (empty) name. -/
theorem claim7_witness :
    (handleCreateTask sampleMissingNameEnv).sent
        = [sendError "validation_error" "Name and Image are required fields"]
    ∧ (handleCreateTask sampleMissingNameEnv).addTaskInvoked = false
    ∧ sessionLoop [SessionEvent.createTask sampleMissingNameEnv]
        = (handleCreateTask sampleMissingNameEnv).sent ++ sessionLoop [] :=
  claim7_thm sampleMissingNameEnv
    { name := "", image := "demo", command := [], env := [],
      working_dir := "", instance_type := "", timeout := 0 }
    [] rfl (Or.inl rfl)

/-- Claim C8 (confirmed): every locally recovered error is surfaced via
`sendError` as a `task_error` envelope with `is_error=true`, `exit_code`
the machine-readable code string and `error` the message; the
`invalid_request`, `stop_error` and `list_error` paths all go through
it; an unrecognized action yields the `unknown_action` code and the read
loop continues with the remaining events. -/
theorem claim8_thm (code msg name tid e : String) (rest : List SessionEvent)
    (sr : Except String Unit) :
    sendError code msg
        = WSOut.jsonMsg "task_error"
            { is_error := true, exit_code := code, error := msg }
    ∧ handleStopTask { payload := none, stopResult := sr }
        = [sendError "invalid_request" "Invalid task ID format"]
    ∧ handleStopTask { payload := some tid, stopResult := Except.error e }
        = [sendError "stop_error" e]
    ∧ handleListTasks { tasks := Except.error e }
        = [sendError "list_error" "Error retrieving tasks"]
    ∧ dispatch (SessionEvent.unknownAction name)
        = ([sendError "unknown_action" "Unsupported action type"], true)
    ∧ sessionLoop (SessionEvent.unknownAction name :: rest)
        = sendError "unknown_action" "Unsupported action type" :: sessionLoop rest :=
  ⟨rfl, rfl, rfl, rfl, rfl, rfl⟩

/-- Claim C9, counterexample: the claim — that the origin predicate is
permissive only in non-production configuration — is false: the source
predicate returns true unconditionally, so it accepts every request also
when the production flag is set. -/
theorem claim9_counterexample :
    ¬ (∀ production : Bool,
        (∀ origin : String, checkOrigin production origin = true) →
          production = false) := by
  intro h
  exact absurd (h true (fun _ => rfl)) (by decide)

/-- Claim C9 (amended): connection admission is decided by the
upgrader's origin predicate, and that predicate accepts every request in
every configuration — production included. -/
theorem claim9_amended (production : Bool) (origin : String) :
    checkOrigin production origin = true :=
  rfl

/-- Claim C10 (confirmed): if JSON serialization of an output record
fails after a run of successfully relayed records, the
`handleCreateTask` relay submits exactly those earlier `task_output`
messages and nothing else: the failing record, the remaining records,
any error envelope and any terminal message are all absent. -/
theorem claim10_thm (t : String) (pre : List RelayEvent) (r : OutputRecord)
    (w : Bool) (rest : List RelayEvent) (h : allOk pre = true) :
    handleCreateTaskRelay t
        (pre ++ { record := r, marshalOk := false, writeOk := w } :: rest)
        = pre.map (fun e => taskOutputMsg t e.record)
    ∧ ∀ m ∈ handleCreateTaskRelay t
          (pre ++ { record := r, marshalOk := false, writeOk := w } :: rest),
        isTaskOutput m = true := by
  have heq := relay_marshal_failure t pre r w rest h
  refine ⟨heq, ?_⟩
  intro m hm
  rw [heq] at hm
  obtain ⟨e, _, hfe⟩ := List.mem_map.mp hm
  rw [← hfe]
  rfl

/-- Claim C10 witness: one successfully relayed record followed by a
record whose serialization fails, with a further record still pending. -/
theorem claim10_witness :
    handleCreateTaskRelay "t1"
        ([sampleGoodEvent] ++
          { record := sampleBadRecord, marshalOk := false, writeOk := true } ::
            [sampleGoodEvent])
        = [sampleGoodEvent].map (fun e => taskOutputMsg "t1" e.record)
    ∧ ∀ m ∈ handleCreateTaskRelay "t1"
          ([sampleGoodEvent] ++
            { record := sampleBadRecord, marshalOk := false, writeOk := true } ::
              [sampleGoodEvent]),
        isTaskOutput m = true :=
  claim10_thm "t1" [sampleGoodEvent] sampleBadRecord true [sampleGoodEvent]
    (by decide)

end RemoteProc
